import Mathlib

/-!
Verification of the Net-API credential vault and vendor-plugin dispatcher.

This file shallowly embeds the Python sources of the repository:

* `security/encryption.py` — class `CryptoSecret` (`encrypt`, `decrypt`,
  `build_key`), the Secret Codec;
* `sql/sql.py` — `SqlServer.read`, the store lookup used by the dispatcher;
* `plugins/plugin.py` — class `Plugin`: `authenticate` and the eight
  capability methods (`device`, `hardware`, `interfaces`, `lldp`, `mac`,
  `ospf`, `routing`, `vlans`), which all share one body shape;
* `endpoints/switching.py` — the plugin-selection loop of `Vlans.get`
  (the same loop appears in `Devices.get`, `Mac.get` and `Lldp.get`) and
  `endpoints/devices.py` — the vendor lookup in `Devices.__init__`.

Cryptographic primitives (PBKDF2-HMAC and Fernet) are external libraries;
they are embedded symbolically but faithfully to their contracts: a derived
key is the tuple of KDF inputs and parameters, and a well-formed Fernet
token records the key it was produced under and the message it carries,
with authenticated decryption succeeding exactly on a matching key.

The store plumbing is embedded literally: `SqlServer.read` returns a
single pyodbc `Row` (the last row the cursor yields) or `None`, and the
callers' subscript `read(...)[0]` takes the first column of that `Row` —
the device id string — so the subsequent `output[1]`, `output[3]`,
`output[5]`, … index characters of the id (Python string subscripts,
with `IndexError` past the end), never the named columns, and `None[0]`
raises a `TypeError`.
-/

/-! ## Byte strings and symbolic cryptography (`security/encryption.py`) -/

/-- Byte strings (each entry is one byte, reduced mod 256 where produced). -/
abbrev Bytes := List Nat

/-- Read `n` bytes from the process entropy source, as `os.urandom(n)` does.
The entropy source is modelled as an infinite stream of bytes supplied by
the operating system. -/
def osUrandom (entropy : Nat → Nat) (n : Nat) : Bytes :=
  (List.range n).map fun i => entropy i % 256

/-- A symmetric key produced by `PBKDF2HMAC.derive`: symbolically, the
inputs (master passphrase and salt) together with the KDF parameters
(`algorithm`, `length` in bytes, `iterations`) used to derive it. Two
derivations agree exactly when all inputs and parameters agree. -/
structure PBKDF2Key where
  algorithm : String
  keyLen : Nat
  salt : Bytes
  iterations : Nat
  master : String
deriving DecidableEq, Repr

/-- A value stored in the `secret` column: either a well-formed Fernet
token (the output of `fernet.encrypt` under some key, carrying an
integrity tag over its message) or any other byte string (corrupted or
malformed ciphertext). -/
inductive FernetToken where
  | enc (key : PBKDF2Key) (msg : String)
  | garbage (raw : String)
deriving DecidableEq, Repr

/-- Symbolic `fernet.encrypt`: produces a well-formed token under the key. -/
def fernetEncrypt (k : PBKDF2Key) (msg : String) : FernetToken :=
  FernetToken.enc k msg

/-- Symbolic `fernet.decrypt`: authenticated decryption succeeds exactly on
a well-formed token whose key matches; any mismatch or malformed input
raises `InvalidToken`, modelled as `none`. -/
def fernetDecrypt (k : PBKDF2Key) (t : FernetToken) : Option String :=
  match t with
  | FernetToken.enc k' m => if k' = k then some m else none
  | FernetToken.garbage _ => none

/-- Class `CryptoSecret`: its only attribute is the master passphrase read
from the `api_master_pw` environment variable in `__init__`. -/
structure CryptoSecret where
  master : String
deriving DecidableEq, Repr

/-- Method `CryptoSecret.build_key` (encryption.py:196-224): derives a key
with `PBKDF2HMAC(algorithm=SHA256, length=32, salt=salt,
iterations=100000)` over the master passphrase. The urlsafe-base64
armouring of the derived key bytes before constructing `Fernet` is a
bijection and is collapsed. -/
def CryptoSecret.build_key (c : CryptoSecret) (salt : Bytes) : PBKDF2Key :=
  { algorithm := "SHA256"
    keyLen := 32
    salt := salt
    iterations := 100000
    master := c.master }

/-- Method `CryptoSecret.encrypt` (encryption.py:167-194): draws a fresh
16-byte salt from `os.urandom`, builds the key for it, and Fernet-encrypts
the password, returning the `(encrypted_message, salt)` pair. -/
def CryptoSecret.encrypt (c : CryptoSecret) (entropy : Nat → Nat)
    (password : String) : FernetToken × Bytes :=
  let salt := osUrandom entropy 16
  let fernet := c.build_key salt
  (fernetEncrypt fernet password, salt)

/-- Method `CryptoSecret.decrypt` (encryption.py:127-165): rebuilds the key
from the given salt and Fernet-decrypts the stored secret. On any
decryption exception the Python method prints a message and returns the
boolean `False`, modelled as `none`; on success it returns the decoded
plaintext string. -/
def CryptoSecret.decrypt (c : CryptoSecret) (secret : FernetToken)
    (salt : Bytes) : Option String :=
  fernetDecrypt (c.build_key salt) secret

/-! ## Theorems about the Secret Codec -/

/-- Claim C5: for every plaintext `x`, decrypting the ciphertext produced
by `encrypt x` with the salt produced by the same `encrypt` call, under the
same master passphrase, returns exactly `x`. -/
theorem encrypt_decrypt_roundtrip (c : CryptoSecret) (entropy : Nat → Nat)
    (x : String) :
    c.decrypt (c.encrypt entropy x).1 (c.encrypt entropy x).2 = some x := by
  simp [CryptoSecret.encrypt, CryptoSecret.decrypt, fernetEncrypt,
    fernetDecrypt]

/-- Claim C8: whenever the stored secret is not a well-formed Fernet token
under the key derived from this instance's master passphrase and the given
salt — wrong key, corrupted or malformed ciphertext, or a ciphertext/salt
mismatch — `CryptoSecret.decrypt` fails (the method returns `False`,
modelled `none`) and never returns a garbled plaintext string. -/
theorem decrypt_integrity_failure_returns_false (c : CryptoSecret)
    (t : FernetToken) (salt : Bytes)
    (h : ∀ m : String, t ≠ FernetToken.enc (c.build_key salt) m) :
    c.decrypt t salt = none := by
  cases t with
  | enc k m =>
    simp only [CryptoSecret.decrypt, fernetDecrypt, ite_eq_right_iff]
    intro hk
    exact absurd (by rw [hk]) (h m)
  | garbage raw => rfl

/-- Witness for C8: decrypting a secret encrypted under master passphrase
`X` with an instance whose master passphrase is `M` fails. -/
theorem decrypt_integrity_failure_returns_false_witness :
    CryptoSecret.decrypt ⟨"M"⟩
      (fernetEncrypt (CryptoSecret.build_key ⟨"X"⟩ [7]) "Sw1tch!") [7]
      = none :=
  decrypt_integrity_failure_returns_false ⟨"M"⟩
    (fernetEncrypt (CryptoSecret.build_key ⟨"X"⟩ [7]) "Sw1tch!") [7]
    (by intro m hm; simp [fernetEncrypt, CryptoSecret.build_key] at hm)

/-- Claim C9: every `CryptoSecret.encrypt` call draws its salt fresh from
the process entropy source, the salt is 16 bytes long (hence at least 16),
and the key is derived from the master passphrase and that very salt by
PBKDF2 over SHA-256 with 100000 iterations (hence at least 100000) and a
32-byte (256-bit) output. -/
theorem encrypt_salt_and_kdf_parameters (c : CryptoSecret)
    (entropy : Nat → Nat) (x : String) :
    (c.encrypt entropy x).2 = osUrandom entropy 16 ∧
    (c.encrypt entropy x).2.length = 16 ∧
    16 ≤ (c.encrypt entropy x).2.length ∧
    (c.encrypt entropy x).1
      = fernetEncrypt (c.build_key (c.encrypt entropy x).2) x ∧
    (c.build_key (c.encrypt entropy x).2).algorithm = "SHA256" ∧
    (c.build_key (c.encrypt entropy x).2).iterations = 100000 ∧
    100000 ≤ (c.build_key (c.encrypt entropy x).2).iterations ∧
    (c.build_key (c.encrypt entropy x).2).keyLen * 8 = 256 := by
  refine ⟨rfl, ?_, ?_, rfl, rfl, rfl, le_refl _, rfl⟩ <;>
    simp [CryptoSecret.encrypt, osUrandom]

/-! ## Python value and error model for the dispatcher -/

/-- Python values flowing through the dispatcher: `None`, booleans,
strings, and opaque structured payloads (the dicts returned by a vendor
plugin, opaque to this core and distinguished only by a tag). -/
inductive PyVal where
  | pyNone
  | bool (b : Bool)
  | str (s : String)
  | obj (tag : Nat)
deriving DecidableEq, Repr

/-- An exception that escapes a method instead of a return value. -/
inductive PyErr where
  | typeError (msg : String)
  | indexError (msg : String)
  | nameError (msg : String)
deriving DecidableEq, Repr

/-- Capabilities, one per remote procedure of a vendor plugin. -/
inductive Capability where
  | device | hardware | interfaces | lldp | mac | ospf | routing | vlans
deriving DecidableEq, Repr

/-- Observable events of one dispatch: a Secret Codec decryption
(`CryptoSecret.decrypt` inside `Plugin.authenticate`) or an attempted
remote procedure call with the argument list handed to the XML-RPC proxy. -/
inductive Event where
  | decryptCall
  | remoteCall (cap : Capability) (args : List PyVal)
deriving DecidableEq, Repr

/-- Exception raised by an attempted remote call, as the dispatcher sees
it: `connRefused` records whether the underlying failure really is a
transport-level connection-refusal (e.g. a `ConnectionRefusedError`), and
`msg` is `str(e)`, the only part the code inspects. -/
structure PyExn where
  connRefused : Bool
  msg : String
deriving DecidableEq, Repr

/-- Outcome of one remote procedure call on the XML-RPC proxy. -/
inductive RemoteResult where
  | ok (payload : PyVal)
  | exn (e : PyExn)
deriving DecidableEq, Repr

/-- Python dict `{"status": ..., "error": ...}` as built in the `except`
blocks of the capability methods. -/
structure ErrDict where
  status : String
  error : String
deriving DecidableEq, Repr

/-- Rendering of an `ErrDict` by `json.dumps` with default separators. -/
def jsonDumps (d : ErrDict) : String :=
  "\x7b\"status\": \"" ++ d.status ++ "\", \"error\": \"" ++ d.error
    ++ "\"\x7d"

/-- Does the list of characters start with the second list? -/
def charsStart : List Char → List Char → Bool
  | _, [] => true
  | [], _ :: _ => false
  | a :: as, b :: bs => a == b && charsStart as bs

/-- Does the list of characters contain the second list as a contiguous
run? -/
def charsHave : List Char → List Char → Bool
  | [], bs => charsStart [] bs
  | a :: as, bs => charsStart (a :: as) bs || charsHave as bs

/-- Python's `needle in hay` test on strings. -/
def strContains (hay needle : String) : Bool :=
  charsHave hay.data needle.data

/-! ## Device store (`sql/create-devices.py` schema, `sql/sql.py` read) -/

/-- A row of the `devices` table, with the columns declared by
`create-devices.py` in order: id, name, site, vendor, type, auth_type,
username, secret, salt, token. The `secret` column holds the Fernet
ciphertext text and the `salt` column its urlsafe-base64 encoding of the
salt bytes; the base64 armour (decoded by `Plugin.authenticate` before
use) is a bijection and is collapsed, so `salt` carries the bytes
directly. Columns that do not belong to the row's `auth_type` are never
read by the dispatcher. -/
structure DeviceRow where
  id : String
  name : String
  site : String
  vendor : String
  devType : String
  auth_type : String
  username : String
  secret : FernetToken
  salt : Bytes
  token : String
deriving DecidableEq, Repr

/-- Value of a named varchar column of a device row, for the `WHERE
{field} = '{value}'` clause built by `SqlServer.read`. The dispatcher only
ever queries by `id`. -/
def DeviceRow.fieldVal (r : DeviceRow) (field : String) : Option String :=
  if field = "id" then some r.id
  else if field = "name" then some r.name
  else if field = "site" then some r.site
  else if field = "vendor" then some r.vendor
  else if field = "type" then some r.devType
  else if field = "auth_type" then some r.auth_type
  else if field = "username" then some r.username
  else if field = "token" then some r.token
  else none

/-- Method `SqlServer.read` (sql.py:367-414) on the device table: executes
`SELECT * ... WHERE field = 'value'` and iterates the cursor assigning
each row to `entry`, so it yields the last matching row, or `None` when no
row matches. -/
def SqlServer.read (table : List DeviceRow) (field value : String) :
    Option DeviceRow :=
  (table.filter fun r => r.fieldVal field = some value).getLast?

/-! ## Plugin dispatcher (`plugins/plugin.py`) -/

/-- Result of `Plugin.authenticate`: the five names every capability
method unpacks its return value into. `password` is the raw result of
`CryptoSecret.decrypt`, which is the decrypted string on success and the
boolean `False` on failure; unused slots hold `None`. -/
structure AuthResult where
  host : PyVal
  auth_type : String
  username : PyVal
  password : PyVal
  token : PyVal
deriving DecidableEq, Repr

/-- Python string subscript `s[i]`: the one-character string at position
`i`, or an `IndexError` when the index is past the end. -/
def pyStrGet (s : String) (i : Nat) : Except PyErr String :=
  match s.data[i]? with
  | some ch => Except.ok (String.singleton ch)
  | none => Except.error (PyErr.indexError "string index out of range")

/-- Subscript `[0]` applied to the pyodbc `Row` returned by
`SqlServer.read`: a `Row` indexes by column, so `row[0]` is its first
column — the `id` string — not the row itself. (Only index 0 is ever
applied to a `Row` in the dispatcher.) -/
def DeviceRow.col0 (r : DeviceRow) : String := r.id

/-- Transport decoding `base64.urlsafe_b64decode(salt.encode())` in the
`secret` branch of `authenticate`. Its only call site is unreachable in
the program (see `authenticate_found_raises`: the branch guard compares a
one-character string with `'secret'`), so the base64 alphabet is
collapsed to an injective byte rendering of the characters. -/
def urlsafeB64decode (s : String) : Bytes := s.data.map Char.toNat

/-- Method `Plugin.authenticate` (plugin.py:547-607), embedded literally.
`output = site_sql.read(field='id', value=device_id)[0]`: `SqlServer.read`
returns a single pyodbc `Row` or `None`; subscripting `None` raises a
`TypeError`, and subscripting a `Row` with `[0]` yields its first column,
the device id string — not the row. The subsequent subscripts
`output[5]` (`auth_type`) and `output[1]` (`host`) therefore index
characters of the id, raising `IndexError` when the id is shorter.
Because `auth_type` is a one-character string, the `secret` branch
(`output[6..8]`, Secret Codec decryption; a character of the id is never
well-formed Fernet token text, hence `FernetToken.garbage`) and the
`token` branch (`output[9]`) are unreachable; the function falls off the
end returning `None`, and every call site unpacks that `None` into five
names, raising a `TypeError`. The event list records Secret Codec
invocations. -/
def Plugin.authenticate (db : List DeviceRow) (c : CryptoSecret)
    (device_id : String) : Except PyErr AuthResult × List Event :=
  match SqlServer.read db "id" device_id with
  | none =>
    (Except.error
      (PyErr.typeError "NoneType object is not subscriptable"), [])
  | some rowRes =>
    let output := rowRes.col0
    match pyStrGet output 5 with
    | Except.error e => (Except.error e, [])
    | Except.ok auth_type =>
      match pyStrGet output 1 with
      | Except.error e => (Except.error e, [])
      | Except.ok host =>
        if auth_type = "secret" then
          match pyStrGet output 6, pyStrGet output 7, pyStrGet output 8 with
          | Except.ok user, Except.ok secretStr, Except.ok saltStr =>
            let password := c.decrypt (FernetToken.garbage secretStr)
              (urlsafeB64decode saltStr)
            (Except.ok
              { host := PyVal.str host
                auth_type := auth_type
                username := PyVal.str user
                password := match password with
                  | some p => PyVal.str p
                  | none => PyVal.bool false
                token := PyVal.pyNone },
              [Event.decryptCall])
          | Except.error e, _, _ => (Except.error e, [])
          | _, Except.error e, _ => (Except.error e, [])
          | _, _, Except.error e => (Except.error e, [])
        else if auth_type = "token" then
          match pyStrGet output 9 with
          | Except.error e => (Except.error e, [])
          | Except.ok token =>
            (Except.ok
              { host := PyVal.str host
                auth_type := auth_type
                username := PyVal.pyNone
                password := PyVal.pyNone
                token := PyVal.str token },
              [])
        else
          (Except.error
            (PyErr.typeError "cannot unpack non-iterable NoneType object"),
            [])

/-- The text the capability methods search for in `str(e)` to recognise a
refused connection: the wording of Windows' `WSAECONNREFUSED`. -/
def refusedNeedle : String := "target machine actively refused it"

/-- Shared `except` logic of the eight capability methods: a successful
remote call returns the payload unchanged; an exception is classified by
substring — when `str(e)` contains `refusedNeedle` the method builds
`{"status": "error", "error": "Connection Refused"}`, otherwise
`{"status": "<vendor> plugin error", "error": str(e)}` — and the dict is
passed through `json.dumps`, so a failure is returned as a JSON string. -/
def classifyRemote (vendor : String) (r : RemoteResult) : PyVal :=
  match r with
  | RemoteResult.ok payload => payload
  | RemoteResult.exn e =>
    if strContains e.msg refusedNeedle then
      PyVal.str (jsonDumps { status := "error", error := "Connection Refused" })
    else
      PyVal.str (jsonDumps { status := vendor ++ " plugin error", error := e.msg })

/-- Class `Plugin` (plugin.py:45-113): a vendor handler with the XML-RPC
proxy opened in `__init__`. The proxy's behaviour is the `server` field:
what each remote procedure returns, or the exception it raises, for a
given argument list. -/
structure Plugin where
  vendor : String
  host : String
  port : Nat
  description : String
  server : Capability → List PyVal → RemoteResult

/-- Common body of the eight capability methods of `Plugin` (`device`,
`hardware`, `interfaces`, `lldp`, `mac`, `ospf`, `routing`, `vlans`,
plugin.py:115-545), which differ only in the remote procedure they call:
unpack `authenticate` (its `None` fall-through raises at the unpacking),
then call the remote procedure with `(host, username, password)` for
`auth_type = 'secret'` or `(host, token)` for `auth_type = 'token'`,
classifying any exception via `classifyRemote`. When `auth_type` is
neither string the `try` body binds nothing and the final `return` raises
a `NameError`. Events record the decryption and the attempted remote
call. -/
def Plugin.invokeCapability (p : Plugin) (db : List DeviceRow)
    (c : CryptoSecret) (cap : Capability) (device_id : String) :
    Except PyErr PyVal × List Event :=
  match Plugin.authenticate db c device_id with
  | (Except.error e, evs) => (Except.error e, evs)
  | (Except.ok a, evs) =>
    if a.auth_type = "secret" then
      let args := [a.host, a.username, a.password]
      (Except.ok (classifyRemote p.vendor (p.server cap args)),
        evs ++ [Event.remoteCall cap args])
    else if a.auth_type = "token" then
      let args := [a.host, a.token]
      (Except.ok (classifyRemote p.vendor (p.server cap args)),
        evs ++ [Event.remoteCall cap args])
    else
      (Except.error
        (PyErr.nameError "name referenced before assignment"), evs)

/-- Method `Plugin.device` (plugin.py:115-169). -/
def Plugin.device (p : Plugin) (db : List DeviceRow) (c : CryptoSecret)
    (device_id : String) : Except PyErr PyVal × List Event :=
  p.invokeCapability db c Capability.device device_id

/-- Method `Plugin.vlans` (plugin.py:495-545). -/
def Plugin.vlans (p : Plugin) (db : List DeviceRow) (c : CryptoSecret)
    (device_id : String) : Except PyErr PyVal × List Event :=
  p.invokeCapability db c Capability.vlans device_id

/-! ## Endpoint dispatch (`endpoints/switching.py`, `endpoints/devices.py`) -/

/-- A process whose `api_master_pw` environment variable is `M`. -/
def masterCrypto : CryptoSecret := { master := "M" }

/-- A 16-byte salt. -/
def d1Salt : Bytes := [0, 1, 2, 3, 4, 5, 6, 7, 8, 9, 10, 11, 12, 13, 14, 15]

/-- Device `D1`: vendor `juniper`, `auth_type = secret`, secret `Sw1tch!`
encrypted under master passphrase `M` with salt `d1Salt`. -/
def d1Row : DeviceRow :=
  { id := "D1", name := "hq-sw01", site := "S1", vendor := "juniper"
    devType := "switch", auth_type := "secret", username := "admin"
    secret := fernetEncrypt (CryptoSecret.build_key masterCrypto d1Salt)
      "Sw1tch!"
    salt := d1Salt, token := "" }

/-- Device `D3`: `auth_type = secret` but the stored ciphertext is
corrupted (not a well-formed Fernet token). -/
def corruptRow : DeviceRow :=
  { id := "D3", name := "corrupt-sw", site := "S1", vendor := "juniper"
    devType := "switch", auth_type := "secret", username := "admin"
    secret := FernetToken.garbage "AAAA", salt := [9, 9], token := "" }

/-- Device `D2`: vendor `cisco`, `auth_type = token`, token `abc123`. -/
def d2Row : DeviceRow :=
  { id := "D2", name := "br-sw02", site := "S2", vendor := "cisco"
    devType := "switch", auth_type := "token", username := ""
    secret := FernetToken.garbage "", salt := [], token := "abc123" }

/-- A remote endpoint that answers every call with an opaque payload. -/
def okServer (tag : Nat) : Capability → List PyVal → RemoteResult :=
  fun _ _ => RemoteResult.ok (PyVal.obj tag)

/-- A remote endpoint whose every call fails with a genuine transport
connection refusal, whose `str(e)` is the POSIX wording. -/
def refusedLinux : Capability → List PyVal → RemoteResult :=
  fun _ _ =>
    RemoteResult.exn
      { connRefused := true, msg := "[Errno 111] Connection refused" }

/-- The `juniper` plugin at `10.0.0.5:9000`, reachable. -/
def juniperPluginOk : Plugin :=
  { vendor := "juniper", host := "10.0.0.5", port := 9000
    description := "Junos handler", server := okServer 7 }

/-- The `juniper` plugin at `10.0.0.5:9000`, refusing connections. -/
def juniperPluginRefused : Plugin :=
  { vendor := "juniper", host := "10.0.0.5", port := 9000
    description := "Junos handler", server := refusedLinux }

/-- The `cisco` plugin at `10.0.0.9:9000`, reachable. -/
def ciscoPluginOk : Plugin :=
  { vendor := "cisco", host := "10.0.0.9", port := 9000
    description := "IOS handler", server := okServer 3 }


/-! ## Helper lemmas about the literal store-subscript path -/

/-- A one-character string never equals a string of a different length. -/
theorem singleton_ne_of_length (ch : Char) (s : String) (hs : s.length ≠ 1) :
    String.singleton ch ≠ s := by
  intro h
  apply hs
  rw [← h]
  rfl

/-- For every device row the store lookup finds, `Plugin.authenticate`
raises: an `IndexError` when the id has fewer than six characters
(`output[5]` past the end of the id string), otherwise the `TypeError`
from unpacking the `None` fall-through (`auth_type` is the single
character `id[5]`, never equal to `'secret'` or `'token'`). No Secret
Codec call and no other event occurs. -/
theorem authenticate_found_raises (db : List DeviceRow) (c : CryptoSecret)
    (device_id : String) (row : DeviceRow)
    (hrow : SqlServer.read db "id" device_id = some row) :
    Plugin.authenticate db c device_id =
      (Except.error (if row.id.length < 6
        then PyErr.indexError "string index out of range"
        else PyErr.typeError "cannot unpack non-iterable NoneType object"),
       []) := by
  unfold Plugin.authenticate
  rw [hrow]
  by_cases hlen : row.id.length < 6
  · rw [if_pos hlen]
    have hlen' : row.id.data.length < 6 := hlen
    have h5 : row.id.data[5]? = none := List.getElem?_eq_none (by omega)
    simp [DeviceRow.col0, pyStrGet, h5]
  · rw [if_neg hlen]
    have h6 : 6 ≤ row.id.data.length := Nat.not_lt.mp hlen
    obtain ⟨ch5, hch5⟩ : ∃ ch, row.id.data[5]? = some ch := by
      cases hq : row.id.data[5]? with
      | some ch => exact ⟨ch, rfl⟩
      | none =>
        rw [List.getElem?_eq_none_iff] at hq
        omega
    obtain ⟨ch1, hch1⟩ : ∃ ch, row.id.data[1]? = some ch := by
      cases hq : row.id.data[1]? with
      | some ch => exact ⟨ch, rfl⟩
      | none =>
        rw [List.getElem?_eq_none_iff] at hq
        omega
    simp only [DeviceRow.col0, pyStrGet, hch5, hch1]
    rw [if_neg (singleton_ne_of_length ch5 "secret" (by decide)),
      if_neg (singleton_ne_of_length ch5 "token" (by decide))]

/-- Propagation of `authenticate_found_raises` through the shared body of
the capability methods: for every found device row, every capability
invocation raises before any remote call, with an empty event trace. -/
theorem invoke_found_raises (p : Plugin) (db : List DeviceRow)
    (c : CryptoSecret) (cap : Capability) (device_id : String)
    (row : DeviceRow)
    (hrow : SqlServer.read db "id" device_id = some row) :
    p.invokeCapability db c cap device_id =
      (Except.error (if row.id.length < 6
        then PyErr.indexError "string index out of range"
        else PyErr.typeError "cannot unpack non-iterable NoneType object"),
       []) := by
  unfold Plugin.invokeCapability
  rw [authenticate_found_raises db c device_id row hrow]

/-! ## Further fixtures with ids long enough to pass `output[5]` -/

/-- A secret-auth device with corrupted ciphertext whose id has six or
more characters, so `authenticate` reaches the `None` fall-through. -/
def corruptRowLong : DeviceRow :=
  { id := "D3-corrupt-01", name := "corrupt-sw2", site := "S1"
    vendor := "juniper", devType := "switch", auth_type := "secret"
    username := "admin", secret := FernetToken.garbage "BBBB"
    salt := [8, 8], token := "" }

/-- A token-auth `cisco` device whose id has six or more characters. -/
def d2RowLong : DeviceRow :=
  { id := "D2-cisco-002", name := "br-sw02", site := "S2"
    vendor := "cisco", devType := "switch", auth_type := "token"
    username := "", secret := FernetToken.garbage "", salt := []
    token := "abc123" }

/-- The `D1` scenario with a long id: vendor `juniper`,
`auth_type = secret`, valid ciphertext for `Sw1tch!` under master
passphrase `M`. -/
def d1RowLong : DeviceRow :=
  { id := "D1-juniper-01", name := "hq-sw01", site := "S1"
    vendor := "juniper", devType := "switch", auth_type := "secret"
    username := "admin"
    secret := fernetEncrypt (CryptoSecret.build_key masterCrypto d1Salt)
      "Sw1tch!"
    salt := d1Salt, token := "" }

/-- Claim C1, counterexample to the claim as stated: for device `D3`
(`auth_type = secret`, corrupted ciphertext) `Plugin.device` does not
return a `DecryptFailed` error envelope — no such value exists in the
code. Instead it raises an `IndexError`: `read(...)[0]` is the id string
`D3`, and `output[5]` indexes past its end. The empty event trace shows
that neither the Secret Codec nor the remote endpoint is ever called. -/
theorem device_corrupt_secret_never_decrypts_cex :
    Plugin.device juniperPluginOk [corruptRow] masterCrypto "D3" =
      (Except.error (PyErr.indexError "string index out of range"), []) := by
  rfl

/-- Claim C1 as amended: for a device row with `auth_type = secret` whose
ciphertext/salt fail decryption, `Plugin.device` returns no
`DecryptFailed` envelope and indeed performs no remote call — but only
because it raises first: `authenticate` misparses the store result
(`read(...)[0]` is the id string, not the row), raising `IndexError` when
the id is shorter than six characters and otherwise returning `None`,
whose five-name unpack raises `TypeError`; the Secret Codec is never
invoked (empty event trace). -/
theorem device_corrupt_secret_raises_before_codec (p : Plugin)
    (db : List DeviceRow) (c : CryptoSecret) (device_id : String)
    (row : DeviceRow)
    (hrow : SqlServer.read db "id" device_id = some row)
    (hsec : row.auth_type = "secret")
    (hdec : c.decrypt row.secret row.salt = none) :
    Plugin.device p db c device_id =
      (Except.error (if row.id.length < 6
        then PyErr.indexError "string index out of range"
        else PyErr.typeError "cannot unpack non-iterable NoneType object"),
       []) := by
  unfold Plugin.device
  exact invoke_found_raises p db c Capability.device device_id row hrow

/-- Witness for the amended C1 at the long-id corrupted device. -/
theorem device_corrupt_secret_raises_before_codec_witness :
    Plugin.device juniperPluginOk [corruptRowLong] masterCrypto
        "D3-corrupt-01" =
      (Except.error
        (PyErr.typeError "cannot unpack non-iterable NoneType object"),
       []) :=
  device_corrupt_secret_raises_before_codec juniperPluginOk
    [corruptRowLong] masterCrypto "D3-corrupt-01" corruptRowLong
    (by rfl) (by rfl) (by rfl)

/-! ## Claim C3: unknown device identifier -/

/-- Claim C3, counterexample to the claim as stated: with an empty device
table, `Plugin.device` does not return a `DeviceNotFound` envelope — it
raises a `TypeError` (subscripting the `None` returned by
`SqlServer.read`) that escapes the dispatcher. -/
theorem unknown_device_raises_cex :
    Plugin.device juniperPluginOk [] masterCrypto "ghost" =
      (Except.error
        (PyErr.typeError "NoneType object is not subscriptable"), []) := by
  rfl

/-- Claim C3 as amended: for every device identifier with no stored
record, invoking any capability performs no remote call and no Secret
Codec call, but instead of returning a `DeviceNotFound` envelope it lets
the `TypeError` raised by `authenticate` escape to the caller. -/
theorem unknown_device_no_remote_call (p : Plugin) (db : List DeviceRow)
    (c : CryptoSecret) (cap : Capability) (device_id : String)
    (h : SqlServer.read db "id" device_id = none) :
    p.invokeCapability db c cap device_id =
      (Except.error
        (PyErr.typeError "NoneType object is not subscriptable"), []) := by
  unfold Plugin.invokeCapability Plugin.authenticate
  rw [h]

/-- Witness for the amended C3: the store holds only `D1`, and the
identifier `ghost9` is absent. -/
theorem unknown_device_no_remote_call_witness :
    Plugin.invokeCapability juniperPluginOk [d1Row] masterCrypto
        Capability.interfaces "ghost9" =
      (Except.error
        (PyErr.typeError "NoneType object is not subscriptable"), []) :=
  unknown_device_no_remote_call juniperPluginOk [d1Row] masterCrypto
    Capability.interfaces "ghost9" (by rfl)

/-! ## Claim C2: unregistered vendor -/

/-- Claim C4, counterexample to the claim as stated: an unknown device
identifier makes `Plugin.vlans` raise a `TypeError` that crosses the
dispatcher boundary instead of being returned as a typed result. -/
theorem dispatcher_uncaught_exception_cex :
    Plugin.vlans juniperPluginOk [] masterCrypto "ghost2" =
      (Except.error
        (PyErr.typeError "NoneType object is not subscriptable"), []) := by
  rfl

/-- Claim C4 as amended: no capability invocation ever returns a typed
result — for every device identifier an uncaught exception crosses the
dispatcher boundary, and no remote call is ever made (the event trace is
always empty): a `TypeError` when the store has no record, an
`IndexError` when the found id has fewer than six characters, and
otherwise the `TypeError` from unpacking `authenticate`'s `None`
fall-through. None of the five error kinds exists as a returned value. -/
theorem dispatcher_always_raises (p : Plugin) (db : List DeviceRow)
    (c : CryptoSecret) (cap : Capability) (device_id : String) :
    (p.invokeCapability db c cap device_id).2 = [] ∧
    (SqlServer.read db "id" device_id = none →
      p.invokeCapability db c cap device_id =
        (Except.error
          (PyErr.typeError "NoneType object is not subscriptable"), [])) ∧
    (∀ row, SqlServer.read db "id" device_id = some row →
      p.invokeCapability db c cap device_id =
        (Except.error (if row.id.length < 6
          then PyErr.indexError "string index out of range"
          else PyErr.typeError
            "cannot unpack non-iterable NoneType object"), [])) := by
  have hnone : SqlServer.read db "id" device_id = none →
      p.invokeCapability db c cap device_id =
        (Except.error
          (PyErr.typeError "NoneType object is not subscriptable"), []) := by
    intro h
    unfold Plugin.invokeCapability Plugin.authenticate
    rw [h]
  refine ⟨?_, hnone, fun row hrow => invoke_found_raises p db c cap
    device_id row hrow⟩
  cases hr : SqlServer.read db "id" device_id with
  | none => rw [hnone hr]
  | some row => rw [invoke_found_raises p db c cap device_id row hr]

/-- Witness for the amended C4 at device `D1` (id of two characters). -/
theorem dispatcher_always_raises_witness :
    Plugin.invokeCapability juniperPluginOk [d1Row] masterCrypto
        Capability.hardware "D1" =
      (Except.error (PyErr.indexError "string index out of range"), []) :=
  (dispatcher_always_raises juniperPluginOk [d1Row] masterCrypto
    Capability.hardware "D1").2.2 d1Row (by rfl)

/-! ## Claim C6: classification of the remote outcome -/

/-- Claim C6, counterexample to the claim as stated: against an endpoint
whose every call fails with a genuine transport connection refusal
(`refusedLinux`, `connRefused := true`, POSIX wording), `Plugin.vlans`
for device `D2` does not produce a `ConnectionRefused` result — it never
reaches the remote call at all, raising `IndexError` in `authenticate`
(`output[5]` on the two-character id string); the trace shows no remote
call was attempted, so no outcome is ever classified. -/
theorem connection_refused_never_classified_cex :
    refusedLinux Capability.vlans [PyVal.str "br-sw02", PyVal.str "abc123"]
      = RemoteResult.exn
        { connRefused := true, msg := "[Errno 111] Connection refused" } ∧
    Plugin.vlans juniperPluginRefused [d2Row] masterCrypto "D2" =
      (Except.error (PyErr.indexError "string index out of range"), []) := by
  exact ⟨rfl, rfl⟩

/-- Claim C6 as amended: no remote capability invocation ever occurs —
every dispatch raises in `authenticate` before the remote call, so no
`remoteCall` event ever appears and no outcome is classified. The
`except` classifier, as written (and unreachable), returns a successful
payload unchanged and keys on the substring `target machine actively
refused it` in `str(e)` — not on the failure's true nature — mapping
matches to the `Connection Refused` envelope and everything else to the
`<vendor> plugin error` envelope with the message. -/
theorem classifier_unreachable_and_substring_keyed (p : Plugin)
    (db : List DeviceRow) (c : CryptoSecret) (cap : Capability)
    (device_id : String) :
    (∀ args, Event.remoteCall cap args ∉
      (p.invokeCapability db c cap device_id).2) ∧
    (∀ v : PyVal, classifyRemote p.vendor (RemoteResult.ok v) = v) ∧
    (∀ e : PyExn, strContains e.msg refusedNeedle = true →
      classifyRemote p.vendor (RemoteResult.exn e) =
        PyVal.str (jsonDumps
          { status := "error", error := "Connection Refused" })) ∧
    (∀ e : PyExn, strContains e.msg refusedNeedle = false →
      classifyRemote p.vendor (RemoteResult.exn e) =
        PyVal.str (jsonDumps
          { status := p.vendor ++ " plugin error", error := e.msg })) := by
  refine ⟨?_, fun v => rfl, fun e he => by simp [classifyRemote, he],
    fun e he => by simp [classifyRemote, he]⟩
  intro args hmem
  cases hr : SqlServer.read db "id" device_id with
  | none =>
    unfold Plugin.invokeCapability Plugin.authenticate at hmem
    rw [hr] at hmem
    simp at hmem
  | some row =>
    rw [invoke_found_raises p db c cap device_id row hr] at hmem
    simp at hmem

/-- Witness for the amended C6: device `D2` against the refusing
`juniper` endpoint — no remote call event exists in the trace. -/
theorem classifier_unreachable_and_substring_keyed_witness :
    ∀ args, Event.remoteCall Capability.vlans args ∉
      (Plugin.invokeCapability juniperPluginRefused [d2Row] masterCrypto
        Capability.vlans "D2").2 :=
  (classifier_unreachable_and_substring_keyed juniperPluginRefused [d2Row]
    masterCrypto Capability.vlans "D2").1

/-! ## Claim C7: token devices and the two-argument remote call -/

/-- Claim C7, evaluation at the failing input: device `D2`
(`auth_type = token`, token `abc123`, vendor `cisco` at `10.0.0.9:9000`)
and the long-id variant. The claim — and the `token` branch of
plugin.py — intend `vlans(host, token)` with no username/password and no
Secret Codec call; the code instead raises in `authenticate` before any
remote call (`IndexError` on the two-character id; the unpack `TypeError`
for the long id), because `read(...)[0]` yields the id string, not the
row. The empty traces show no remote call and no codec call is made. -/
theorem token_device_remote_call_never_made :
    Plugin.invokeCapability ciscoPluginOk [d2Row] masterCrypto
        Capability.vlans "D2" =
      (Except.error (PyErr.indexError "string index out of range"), []) ∧
    Plugin.invokeCapability ciscoPluginOk [d2RowLong] masterCrypto
        Capability.vlans "D2-cisco-002" =
      (Except.error
        (PyErr.typeError "cannot unpack non-iterable NoneType object"),
       []) := by
  exact ⟨rfl, rfl⟩

/-! ## Claim C10: failure values as JSON strings, success as payload -/

/-- Claim C10, evaluation at the failing input: the `D1` scenario with a
long id (`auth_type = secret`, valid ciphertext for `Sw1tch!` under
master passphrase `M`, `juniper` plugin loaded). Whether the remote
endpoint answers every call with a payload (`juniperPluginOk`) or fails
every call (`juniperPluginRefused`), the outcome is identical: the
dispatch raises the unpack `TypeError` in `authenticate` before the
remote call, so the caller receives neither the raw payload nor a
`json.dumps` string — the `except` handler of the capability methods is
unreachable. -/
theorem capability_handler_unreachable :
    Plugin.invokeCapability juniperPluginOk [d1RowLong] masterCrypto
        Capability.device "D1-juniper-01" =
      (Except.error
        (PyErr.typeError "cannot unpack non-iterable NoneType object"),
       []) ∧
    Plugin.invokeCapability juniperPluginRefused [d1RowLong] masterCrypto
        Capability.device "D1-juniper-01" =
      (Except.error
        (PyErr.typeError "cannot unpack non-iterable NoneType object"),
       []) := by
  exact ⟨rfl, rfl⟩
